import Mathlib

namespace ITeach

/-! ### Python string primitives -/

/-- Whitespace characters recognized by Python's `str.split()` with no
argument: space, tab, newline, carriage return, vertical tab, form feed. -/
def pyIsSpace (c : Char) : Bool :=
  c = ' ' || c = '\t' || c = '\n' || c = '\r' || c = '\x0b' || c = '\x0c'

/-- Worker for `pySplit`: `acc` is the current in-progress word, reversed. -/
def pySplitAux : List Char → List Char → List (List Char)
  | [], acc => if acc.isEmpty then [] else [acc.reverse]
  | c :: cs, acc =>
    if pyIsSpace c then
      if acc.isEmpty then pySplitAux cs [] else acc.reverse :: pySplitAux cs []
    else
      pySplitAux cs (c :: acc)

/-- Python `s.split()`: split on runs of whitespace, dropping empty pieces. -/
def pySplit (s : List Char) : List (List Char) :=
  pySplitAux s []

/-- Python `' '.join(words)`. -/
def joinSpace (words : List (List Char)) : List Char :=
  List.intercalate [' '] words

/-- Python `l[-n:]` on a list (the whole list when it is shorter than `n`). -/
def lastN (n : Nat) (l : List (List Char)) : List (List Char) :=
  l.drop (l.length - n)

/-- Helper: `startsWith pat s` means `pat` is an initial segment of `s`. -/
def startsWith : List Char → List Char → Bool
  | [], _ => true
  | _ :: _, [] => false
  | p :: ps, c :: cs => p = c && startsWith ps cs

/-- Python `pat in s` on strings: `pat` occurs as a contiguous substring. -/
def containsSeq (pat : List Char) : List Char → Bool
  | [] => pat.isEmpty
  | c :: rest => startsWith pat (c :: rest) || containsSeq pat rest

/-- Python `s.lower()` (ASCII case folding; the keyword lists are ASCII). -/
def lowerChars (s : List Char) : List Char :=
  s.map Char.toLower

/-! ### `create_story_summary` (story_generation.py lines 71-85) -/

/-- Source `create_story_summary(chapter_content, chapter_num)`: a chapter of at
most 100 words is kept verbatim; a longer one becomes its first 60 words,
an ellipsis, and its last 40 words; the result is sliced to 400 chars. -/
def create_story_summary (chapter_content : List Char) (_chapter_num : Nat := 0) :
    List Char :=
  let words := pySplit chapter_content
  let summary :=
    if words.length ≤ 100 then
      chapter_content
    else
      joinSpace (words.take 60) ++ "... ".toList ++ joinSpace (lastN 40 words)
  summary.take 400

/-! ### Configuration (core/config.py line 61) -/

/-- Setting `CONTENT_SAFETY_THRESHOLD` of `Settings`, default `0.5`. -/
def CONTENT_SAFETY_THRESHOLD : ℚ := mkRat 1 2

/-! ### Story-generation workflow state (story_generation.py lines 46-68) -/

/-- One Choice option, as produced by the structured-output `Choice` model
(story_generation.py lines 26-29). -/
structure ChoiceOption where
  text : String
  description : String
deriving DecidableEq

/-- One previous-choice record carried in the workflow state. -/
structure PrevChoice where
  question : String
  chosen_option : String
deriving DecidableEq

/-- Child preference dictionary: the keys the workflow nodes read via
`.get(key, default)`; `none` models an absent key. -/
structure ChildPreferences where
  age : Option Nat
  reading_level : Option String
  language : Option String
deriving DecidableEq

/-- The `StoryGenerationState` TypedDict (plus the `vocabulary_words` key that
`generate_story_content` merges into it). Story text is a `List Char`. -/
structure StoryGenerationState where
  child_preferences : ChildPreferences
  story_theme : String
  chapter_number : Nat
  previous_chapters : List (List Char)
  previous_choices : List PrevChoice
  custom_user_input : Option String
  story_content : List Char
  choices : List ChoiceOption
  safety_score : ℚ
  content_approved : Bool
  content_issues : List String
  estimated_reading_time : ℤ
  vocabulary_level : String
  educational_elements : List String
  vocabulary_words : List String
deriving DecidableEq

/-! ### `check_content_safety` (story_generation.py lines 327-366) -/

/-- Keys of the dict returned by the `safety_check` node. -/
structure SafetyCheckResult where
  safety_score : ℚ
  content_approved : Bool
  content_issues : List String
deriving DecidableEq

/-- The `inappropriate_themes` keyword list (line 339). -/
def inappropriate_themes : List String :=
  ["violence", "scary", "horror", "death", "war"]

/-- The intensity keyword list for children younger than 8 (line 347). -/
def intensity_words : List String :=
  ["afraid", "worried", "scared"]

/-- Normal (non-raising) path of `check_content_safety`: start at score 1.0,
clamp to 0.7 on each inappropriate-theme hit, clamp to 0.8 when a child
younger than 8 would meet an intensity word, approve iff the final score
reaches `CONTENT_SAFETY_THRESHOLD`. -/
def check_content_safety (state : StoryGenerationState) : SafetyCheckResult :=
  let content_lower := lowerChars state.story_content
  let start : ℚ × List String := (mkRat 1 1, [])
  let afterThemes := inappropriate_themes.foldl
    (fun acc theme =>
      if containsSeq theme.toList content_lower then
        (min acc.1 (mkRat 7 10), acc.2 ++ ["Contains " ++ theme ++ " theme"])
      else acc)
    start
  let child_age := state.child_preferences.age.getD 9
  let afterAge :=
    if child_age < 8 && intensity_words.any (fun w => containsSeq w.toList content_lower) then
      (min afterThemes.1 (mkRat 8 10),
        afterThemes.2 ++ ["May be too intense for younger children"])
    else afterThemes
  { safety_score := afterAge.1
    content_approved := decide (afterAge.1 ≥ CONTENT_SAFETY_THRESHOLD)
    content_issues := afterAge.2 }

/-- Degraded result of the `except` branch of `check_content_safety`
(lines 359-366): score 0.5, not approved, flagged for manual review. -/
def safety_check_failure_result : SafetyCheckResult :=
  { safety_score := mkRat 1 2
    content_approved := false
    content_issues := ["Safety check failed - manual review required"] }

/-- LangGraph merge of a `safety_check` partial update into the state. -/
def apply_safety (s : StoryGenerationState) (r : SafetyCheckResult) :
    StoryGenerationState :=
  { s with
    safety_score := r.safety_score
    content_approved := r.content_approved
    content_issues := r.content_issues }

/-! ### `generate_story_content` and `enhance_content_if_needed` merges -/

/-- Fields of the structured `StoryContent` output that the generation node
merges into the state (story_generation.py lines 313-318). -/
structure GeneratedContent where
  story_content : List Char
  choices : List ChoiceOption
  educational_elements : List String
  vocabulary_words : List String
deriving DecidableEq

/-- LangGraph merge of a successful `generate_content` output. -/
def apply_generation (s : StoryGenerationState) (g : GeneratedContent) :
    StoryGenerationState :=
  { s with
    story_content := g.story_content
    choices := g.choices
    educational_elements := g.educational_elements
    vocabulary_words := g.vocabulary_words }

/-- Guard of `enhance_content_if_needed` (line 371):
`not content_approved and safety_score > 0.3`. -/
def enhancement_condition (s : StoryGenerationState) : Bool :=
  !s.content_approved && decide (s.safety_score > mkRat 3 10)

/-- Effect of `enhance_content_if_needed`: when the guard holds and the model
call succeeds (`some enhanced`), the story content is replaced; on a model
failure (`none`) or when the guard fails, the returned update is `{}`. -/
def apply_enhancement (s : StoryGenerationState) :
    Option (List Char) → StoryGenerationState
  | none => s
  | some enhanced =>
    if enhancement_condition s then { s with story_content := enhanced } else s

/-! ### Conditional routing (story_generation.py lines 542-580) -/

/-- Source `should_regenerate_content`: the string-valued conditional-edge function
run after every `safety_check`. -/
def should_regenerate_content (s : StoryGenerationState) : String :=
  if !s.content_approved then
    if s.safety_score < mkRat 3 10 then "regenerate" else "enhance"
  else "finalize"

/-- Nodes of the compiled story-generation graph (plus the END marker). -/
inductive WorkflowNode where
  | generate_content
  | safety_check
  | enhance_content
  | calculate_metrics
  | terminal
deriving DecidableEq

/-- The conditional-edge table of `create_story_generation_workflow`:
`regenerate → generate_content`, `enhance → enhance_content`,
`finalize → calculate_metrics`. -/
def safety_check_route (s : StoryGenerationState) : WorkflowNode :=
  if should_regenerate_content s = "regenerate" then .generate_content
  else if should_regenerate_content s = "enhance" then .enhance_content
  else .calculate_metrics

/-! ### `format_story_content` (story_generation.py lines 413-506) -/

/-- English keyword→emoji table, in source (insertion) order. -/
def emoji_map_en : List (String × String) :=
  [("happy", "😊"), ("smiled", "😊"), ("laughed", "😄"), ("giggled", "😆"),
   ("excited", "🤗"), ("surprised", "😮"), ("amazed", "😲"), ("wondered", "🤔"),
   ("brave", "💪"), ("strong", "💪"), ("hero", "🦸"), ("friend", "👫"),
   ("forest", "🌳"), ("tree", "🌲"), ("flowers", "🌸"), ("garden", "🏡"),
   ("mountain", "⛰️"), ("ocean", "🌊"), ("river", "🏞️"), ("beach", "🏖️"),
   ("sun", "☀️"), ("moon", "🌙"), ("star", "⭐"), ("rainbow", "🌈"),
   ("cloud", "☁️"), ("rain", "🌧️"), ("snow", "❄️"),
   ("dog", "🐕"), ("cat", "🐱"), ("bird", "🐦"), ("butterfly", "🦋"),
   ("rabbit", "🐰"), ("lion", "🦁"), ("elephant", "🐘"), ("dragon", "🐉"),
   ("unicorn", "🦄"), ("fish", "🐟"),
   ("book", "📚"), ("treasure", "💎"), ("magic", "✨"), ("crown", "👑"),
   ("castle", "🏰"), ("house", "🏠"), ("school", "🏫"), ("rocket", "🚀"),
   ("car", "🚗"), ("bicycle", "🚲"), ("balloon", "🎈"), ("gift", "🎁"),
   ("celebration", "🎉"), ("party", "🎊"), ("success", "🎯"), ("victory", "🏆"),
   ("music", "🎵"), ("dance", "💃"), ("game", "🎮"), ("adventure", "🗺️")]

/-- Hebrew keyword→emoji table, in source (insertion) order. -/
def emoji_map_he : List (String × String) :=
  [("שמח", "😊"), ("חייך", "😊"), ("צחק", "😄"), ("התרגש", "🤗"),
   ("הופתע", "😮"), ("אמיץ", "💪"), ("גיבור", "🦸"), ("חבר", "👫"),
   ("יער", "🌳"), ("עץ", "🌲"), ("פרחים", "🌸"), ("גן", "🏡"),
   ("הר", "⛰️"), ("ים", "🌊"), ("נהר", "🏞️"), ("חוף", "🏖️"),
   ("שמש", "☀️"), ("ירח", "🌙"), ("כוכב", "⭐"), ("קשת", "🌈"),
   ("כלב", "🐕"), ("חתול", "🐱"), ("ציפור", "🐦"), ("פרפר", "🦋"),
   ("ארנב", "🐰"), ("אריה", "🦁"), ("פיל", "🐘"), ("דרקון", "🐉"),
   ("ספר", "📚"), ("אוצר", "💎"), ("קסם", "✨"), ("כתר", "👑"),
   ("טירה", "🏰"), ("בית", "🏠"), ("בית ספר", "🏫"), ("חלל", "🚀")]

/-- Python `emoji_map_he if language == "hebrew" else emoji_map_en`. -/
def emoji_map_for (language : String) : List (String × String) :=
  if language = "hebrew" then emoji_map_he else emoji_map_en

/-- Sentence-ending marks checked by `word.endswith(...)` (line 473). -/
def sentence_end_marks : List Char := ['.', '!', '?', '。', '！', '？']

/-- Does the word end with a sentence-ending mark? -/
def endsWithMark (w : List Char) : Bool :=
  match w.getLast? with
  | some c => sentence_end_marks.contains c
  | none => false

/-- Append the first matching contextual emoji to a finished sentence: the
first table entry whose keyword occurs in the lowercased sentence while its
emoji does not already occur in the sentence (lines 476-481). -/
def add_emoji (emap : List (String × String)) (sentence : List Char) : List Char :=
  match emap.find? (fun kv =>
      containsSeq kv.1.toList (lowerChars sentence) &&
      !containsSeq kv.2.toList sentence) with
  | some kv => sentence ++ (' ' :: kv.2.toList)
  | none => sentence

/-- The word loop of `format_story_content` (lines 466-488): accumulate words
into the current sentence, flush (with emoji pass) at each sentence-ending
word, and append any leftover words as a final sentence without the emoji
pass. -/
def split_into_sentences (emap : List (String × String)) :
    List (List Char) → List (List Char) → List (List Char)
  | [], cur => if cur.isEmpty then [] else [joinSpace cur]
  | w :: ws, cur =>
    let cur' := cur ++ [w]
    if endsWithMark w then
      add_emoji emap (joinSpace cur') :: split_into_sentences emap ws []
    else
      split_into_sentences emap ws cur'

/-- The paragraph loop (lines 490-501): flush the current group once it holds
3 sentences, or at the last sentence. -/
def group_paragraphs : List (List Char) → List (List Char) → List (List Char)
  | [], _ => []
  | [s], cur => [joinSpace (cur ++ [s])]
  | s :: s2 :: ss, cur =>
    let cur' := cur ++ [s]
    if 3 ≤ cur'.length then
      joinSpace cur' :: group_paragraphs (s2 :: ss) []
    else
      group_paragraphs (s2 :: ss) cur'

/-- Source `format_story_content(content, language)`: sentence split with contextual
emojis, grouped into paragraphs joined by blank lines. -/
def format_story_content (content : List Char) (language : String := "english") :
    List Char :=
  let sentences := split_into_sentences (emoji_map_for language) (pySplit content) []
  List.intercalate ['\n', '\n'] (group_paragraphs sentences [])

/-! ### `calculate_reading_metrics` (story_generation.py lines 509-539) -/

/-- The words-per-minute table keyed by reading level then age (lines
523-527). -/
def wpm_map : List (String × List (Nat × Nat)) :=
  [("beginner", [(7, 80), (8, 90), (9, 100), (10, 110), (11, 120), (12, 130)]),
   ("intermediate", [(7, 100), (8, 120), (9, 140), (10, 160), (11, 180), (12, 200)]),
   ("advanced", [(7, 120), (8, 150), (9, 180), (10, 210), (11, 240), (12, 270)])]

/-- Python `wpm_map.get(reading_level, ...).get(child_age, 120)`. -/
def wpmFor (reading_level : String) (child_age : Nat) : Nat :=
  (((wpm_map.lookup reading_level).getD []).lookup child_age).getD 120

/-- Python's built-in `round` on an exact rational: round half to even. -/
def pyRound (q : ℚ) : ℤ :=
  let f := ⌊q⌋
  let r := q - (f : ℚ)
  if r < mkRat 1 2 then f
  else if mkRat 1 2 < r then f + 1
  else if f % 2 = 0 then f else f + 1

/-- The `calculate_metrics` node: formats the story content, estimates the
reading time as `max(1, round(word_count / wpm))`, and passes the reading
level through as the vocabulary level; merged into the state. -/
def calculate_reading_metrics_update (s : StoryGenerationState) :
    StoryGenerationState :=
  let content := s.story_content
  let child_age := s.child_preferences.age.getD 9
  let reading_level := s.child_preferences.reading_level.getD "beginner"
  let language := s.child_preferences.language.getD "english"
  let formatted_content := format_story_content content language
  let word_count := (pySplit content).length
  let wpm := wpmFor reading_level child_age
  let estimated_reading_time : ℤ := max 1 (pyRound ((word_count : ℚ) / (wpm : ℚ)))
  { s with
    story_content := formatted_content
    estimated_reading_time := estimated_reading_time
    vocabulary_level := reading_level }

/-! ### The compiled graph as a step relation -/

/-- One transition of the compiled story-generation graph. The model
outcomes (generated content, enhancement text) are unconstrained, and a
safety check yields either the keyword-scored result or, when the node body
raises, the degraded default. -/
inductive WorkflowStep :
    WorkflowNode × StoryGenerationState → WorkflowNode × StoryGenerationState → Prop where
  | generate (s : StoryGenerationState) (g : GeneratedContent) :
      WorkflowStep (.generate_content, s) (.safety_check, apply_generation s g)
  | safety (s : StoryGenerationState) (r : SafetyCheckResult)
      (hr : r = check_content_safety s ∨ r = safety_check_failure_result) :
      WorkflowStep (.safety_check, s)
        (safety_check_route (apply_safety s r), apply_safety s r)
  | enhance (s : StoryGenerationState) (e : Option (List Char)) :
      WorkflowStep (.enhance_content, s) (.safety_check, apply_enhancement s e)
  | metrics (s : StoryGenerationState) :
      WorkflowStep (.calculate_metrics, s)
        (.terminal, calculate_reading_metrics_update s)

/-! ### Concrete states for the counterexamples -/

/-- The initial workflow state built by
`StoryService.generate_personalized_story` (story_service.py lines 104-120). -/
def initial_state (prefs : ChildPreferences) (theme : String) (chapter : Nat)
    (prev_chapters : List (List Char)) (prev_choices : List PrevChoice)
    (custom : Option String) : StoryGenerationState :=
  { child_preferences := prefs
    story_theme := theme
    chapter_number := chapter
    previous_chapters := prev_chapters
    previous_choices := prev_choices
    custom_user_input := custom
    story_content := []
    choices := []
    safety_score := 0
    content_approved := false
    content_issues := []
    estimated_reading_time := 0
    vocabulary_level := ""
    educational_elements := []
    vocabulary_words := [] }

/-- A concrete generated chapter used to drive the C4 execution. -/
def c4Gen : GeneratedContent :=
  { story_content := "Once upon a time.".toList
    choices := [⟨"Go on", ""⟩]
    educational_elements := []
    vocabulary_words := [] }

/-- State after the initial `generate_content`. -/
def c4S1 : StoryGenerationState :=
  apply_generation
    (initial_state ⟨some 9, some "beginner", some "english"⟩ "adventure" 1 [] [] none)
    c4Gen

/-- State after a `safety_check` whose body raised. -/
def c4S2 : StoryGenerationState := apply_safety c4S1 safety_check_failure_result

/-- State after the first enhancement. -/
def c4S3 : StoryGenerationState :=
  apply_enhancement c4S2 (some "A calmer tale.".toList)

/-- State after a second raising `safety_check`. -/
def c4S4 : StoryGenerationState := apply_safety c4S3 safety_check_failure_result

/-- State after the second enhancement of the same generation attempt. -/
def c4S5 : StoryGenerationState :=
  apply_enhancement c4S4 (some "An even calmer tale.".toList)

/-- Reading-time estimate as the specification words it: `ceil(word_count /
wpm)`, floored at 1 minute. Stated separately so it can be compared with the
behaviour of `calculate_reading_metrics_update`. -/
def spec_estimated_reading_time (word_count wpm : Nat) : ℤ :=
  max 1 ⌈(word_count : ℚ) / (wpm : ℚ)⌉

/-- A 100-word chapter (each word is `w`). -/
def c9Content : List Char := (List.replicate 100 ['w', ' ']).flatten

/-- Workflow state holding the 100-word chapter for a 7-year-old beginner. -/
def c9State : StoryGenerationState :=
  { initial_state ⟨some 7, some "beginner", some "english"⟩ "space" 1 [] [] none with
    story_content := c9Content }

/-- A four-sentence chapter used to exhibit the story-text rewrite. -/
def c10State : StoryGenerationState :=
  { initial_state ⟨some 9, some "beginner", some "english"⟩ "adventure" 1 [] [] none with
    story_content := "A. B. C. D.".toList }

/-! ### `calculate_overall_safety` (content_safety.py lines 259-314) -/

/-- The `moderation_result` dict: only the `flagged` key is read by the
final assessment, via `.get("flagged", False)`. -/
structure ModerationResult where
  flagged : Option Bool
deriving DecidableEq

/-- The content-safety state fields read by `calculate_overall_safety`;
`none` models an absent key, read via `.get(key, default)`. -/
structure ContentSafetyInputs where
  moderation_result : ModerationResult
  age_appropriateness_score : Option ℚ
  cultural_sensitivity_score : Option ℚ
  educational_value_score : Option ℚ
deriving DecidableEq

/-- Final-assessment output fields. -/
structure OverallSafety where
  overall_safety_score : ℚ
  is_approved : Bool
  needs_review : Bool
deriving DecidableEq

/-- Source `calculate_overall_safety`: weighted sum with weights 0.4 (moderation,
scored 0 when flagged else 1), 0.3 (age), 0.2 (cultural), 0.1 (educational);
approve at `CONTENT_SAFETY_THRESHOLD`, flag for review below 0.8. The
recommendation aggregation (lines 287-307) touches none of these fields and
is not modelled. -/
def calculate_overall_safety (st : ContentSafetyInputs) : OverallSafety :=
  let moderation_score : ℚ := if st.moderation_result.flagged.getD false then 0 else 1
  let age_score := st.age_appropriateness_score.getD (mkRat 8 10)
  let cultural_score := st.cultural_sensitivity_score.getD (mkRat 8 10)
  let educational_score := st.educational_value_score.getD (mkRat 1 2)
  let overall_score :=
    moderation_score * mkRat 4 10 + age_score * mkRat 3 10
      + cultural_score * mkRat 2 10 + educational_score * mkRat 1 10
  { overall_safety_score := overall_score
    is_approved := decide (overall_score ≥ CONTENT_SAFETY_THRESHOLD)
    needs_review := decide (overall_score < mkRat 8 10) }

/-- Concrete sub-scores yielding an overall score of exactly 0.7. -/
def c7Inputs : ContentSafetyInputs :=
  { moderation_result := ⟨some false⟩
    age_appropriateness_score := some (mkRat 1 2)
    cultural_sensitivity_score := some (mkRat 1 2)
    educational_value_score := some (mkRat 1 2) }

/-- A 101-word chapter (each word is `w`). -/
def c8Long : List Char := (List.replicate 101 ['w', ' ']).flatten

/-! ### Claim C2: choice validation and generic fallback (spec-modelled) -/

/-- Modelled from the spec: the young-band generic fallback choices (§4.2,
"two age bands: young vs older, each with 3 options"). The implementing
function `generate_contextual_choices` is imported by
`test_contextual_suggestions.py` but is absent from
`app/workflows/story_generation.py`, so the option texts are representative. -/
def young_generic_choices : List ChoiceOption :=
  [⟨"Keep exploring", "See what is around the next corner"⟩,
   ⟨"Ask a friend for help", "Two heads are better than one"⟩,
   ⟨"Try something kind", "A little kindness goes a long way"⟩]

/-- Modelled from the spec: the older-band generic fallback choices. -/
def older_generic_choices : List ChoiceOption :=
  [⟨"Investigate the mystery", "Look for clues about what happened"⟩,
   ⟨"Make a careful plan", "Think before acting"⟩,
   ⟨"Stand up for what is right", "Courage matters"⟩]

/-- Modelled from the spec: the static per-language lookup table used to
translate the generic fallback texts for non-English targets. -/
def generic_choice_translations : List (String × List (String × String)) :=
  [("hebrew",
    [("Keep exploring", "להמשיך לחקור"),
     ("Ask a friend for help", "לבקש עזרה מחבר"),
     ("Try something kind", "לנסות משהו נחמד"),
     ("Investigate the mystery", "לחקור את התעלומה"),
     ("Make a careful plan", "להכין תוכנית זהירה"),
     ("Stand up for what is right", "לעמוד על מה שנכון")])]

/-- Modelled from the spec: translate one generic choice's text through the
static table when the target language is non-English (unknown languages or
texts fall back to the English text). -/
def translate_generic_choice (language : String) (c : ChoiceOption) : ChoiceOption :=
  if language = "english" then c
  else
    let table := (generic_choice_translations.lookup language).getD []
    { text := (table.lookup c.text).getD c.text, description := c.description }

/-- Modelled from the spec: the deterministic age-banded generic choice set,
three options, translated into the target language. -/
def generic_fallback_choices (age : Nat) (language : String) : List ChoiceOption :=
  let band := if age ≤ 9 then young_generic_choices else older_generic_choices
  band.map (translate_generic_choice language)

/-- Modelled from the spec: choice validation in the Content Generator —
drop every parsed choice lacking a non-empty `text` field; if zero valid
choices remain, substitute the age-banded generic fallback set. -/
def validate_parsed_choices (parsed : List ChoiceOption) (age : Nat)
    (language : String) : List ChoiceOption :=
  let valid := parsed.filter (fun c => c.text ≠ "")
  if valid.isEmpty then generic_fallback_choices age language else valid

/-! ### Session rows (models/story_session.py) -/

/-- One entry of the `choices_made` JSON log (story_session.py lines 74-84). -/
structure ChoiceMade where
  choice_id : Nat
  option_index : Nat
  timestamp : Nat
deriving DecidableEq

/-- A `story_sessions` row, with the fields the session service reads or
writes. -/
structure SessionRow where
  id : Nat
  child_id : Nat
  story_id : Nat
  current_chapter : Nat
  choices_made : List ChoiceMade
  is_completed : Bool
  is_bookmarked : Bool
  completion_percentage : Nat
  session_duration : Nat
  words_read : Nat
  audio_playback_used : Bool
  audio_playback_duration : Nat
  choices_engagement_rate : Nat
  reading_speed_wpm : Nat
  pause_count : Nat
  vocabulary_encountered : List String
  started_at : Nat
  last_accessed : Nat
  completed_at : Option Nat
deriving DecidableEq

/-- Method `StorySession.add_choice` (story_session.py lines 74-84): append one
record to the in-memory choice log. -/
def add_choice (s : SessionRow) (choice_id option_index now : Nat) : SessionRow :=
  { s with choices_made := s.choices_made ++ [⟨choice_id, option_index, now⟩] }

/-- Method `StorySession.calculate_engagement_rate` (lines 86-90). -/
def calculate_engagement_rate (s : SessionRow) : Nat :=
  min 100 (s.choices_made.length * 20)

/-! ### `start_story_session` (story_session_service.py lines 52-105) -/

/-- The resume query's filter: same child, same story, not completed. -/
def session_is_active_for (child_id story_id : Nat) (s : SessionRow) : Bool :=
  s.child_id = child_id && s.story_id = story_id && s.is_completed = false

/-- The freshly initialized session created when no active one exists
(lines 75-93): chapter 1, 0% completion, empty log and metrics. -/
def new_session (id child_id story_id now : Nat) : SessionRow :=
  { id := id
    child_id := child_id
    story_id := story_id
    current_chapter := 1
    choices_made := []
    is_completed := false
    is_bookmarked := false
    completion_percentage := 0
    session_duration := 0
    words_read := 0
    audio_playback_used := false
    audio_playback_duration := 0
    choices_engagement_rate := 0
    reading_speed_wpm := 0
    pause_count := 0
    vocabulary_encountered := []
    started_at := now
    last_accessed := now
    completed_at := none }

/-- Source `start_story_session`: resume the first active session for the pair if
one exists (touching only `last_accessed`), else create a fresh session.
Returns the session handed back to the caller and the committed table. -/
def start_story_session (db : List SessionRow) (child_id story_id now fresh_id : Nat) :
    SessionRow × List SessionRow :=
  match db.find? (session_is_active_for child_id story_id) with
  | some s =>
    let s' := { s with last_accessed := now }
    (s', db.map (fun r => if r.id = s.id then s' else r))
  | none =>
    let s := new_session fresh_id child_id story_id now
    (s, db ++ [s])

/-! ### Story graph rows (models/story.py, models/story_chapter.py) -/

/-- One option payload inside `Choice.choices_data` (`text`, optional
`description`, optional `impact`; absent keys read back as defaults). -/
structure OptionData where
  text : String
  description : String
  impact : String
deriving DecidableEq

/-- A `choices` row. -/
structure ChoiceRow where
  id : Nat
  story_id : Nat
  chapter_number : Nat
  question : String
  choices_data : List OptionData
deriving DecidableEq

/-- A `story_branches` row. -/
structure BranchRow where
  id : Nat
  story_id : Nat
  choice_id : Nat
  choice_option_index : Nat
  content : String
  leads_to_chapter : Option Nat
  is_ending : Bool
deriving DecidableEq

/-- A `story_chapters` row (the fields the branching path touches). -/
structure StoryChapterRow where
  story_id : Nat
  chapter_number : Nat
  content : String
  is_ending : Bool
deriving DecidableEq

/-- The committed tables the choice-advance path reads and writes. -/
structure ServiceDb where
  sessions : List SessionRow
  choices : List ChoiceRow
  branches : List BranchRow
  chapters : List StoryChapterRow
deriving DecidableEq

/-! ### `generate_branch_content` (story_service.py lines 924-999) -/

/-- Outcome of the `generate_personalized_story` model call made during lazy
branch generation: the generated chapter text, its parsed choices, and the
contextual choice question. -/
structure GenOut where
  story_content : String
  choices : List OptionData
  choice_question : Option String
deriving DecidableEq

/-- Fresh primary keys consumed when the success path persists new rows. -/
structure FreshIds where
  choice_id : Nat
  branch_id_base : Nat
deriving DecidableEq

/-- Method `StoryService._create_story_choices` (story_service.py lines 639-687):
persist one choice row holding all options plus one empty branch per option
leading to the next chapter. A missing `choice_question` raises inside the
function's own try block, which rolls back and persists nothing. -/
def create_story_choices_rows (db : ServiceDb) (story_id chapter_number : Nat)
    (choices_data : List OptionData) (choice_question : Option String)
    (fresh : FreshIds) : ServiceDb :=
  match choice_question with
  | none => db
  | some q =>
    let choice : ChoiceRow := ⟨fresh.choice_id, story_id, chapter_number, q, choices_data⟩
    let branches := choices_data.enum.map (fun p =>
      (⟨fresh.branch_id_base + p.1, story_id, fresh.choice_id, p.1, "",
        some (chapter_number + 1), false⟩ : BranchRow))
    { db with choices := db.choices ++ [choice], branches := db.branches ++ branches }

/-- Method `StoryService.generate_branch_content`: reuse persisted branch content;
otherwise re-fetch the choice, validate the option index, and run the
generation oracle (`none` models a failed generation — a `success: False`
result or a raise — after which nothing is committed). On success the branch
content is memoized, a chapter row is created when missing, choices for the
new chapter are persisted, and everything is committed. -/
def generate_branch_content (db : ServiceDb) (b : BranchRow) (session_story_id : Nat)
    (gen : Option GenOut) (fresh : FreshIds) : Option String × ServiceDb :=
  if b.content ≠ "" then (some b.content, db)
  else
    match db.choices.find? (fun c => c.id = b.choice_id) with
    | none => (none, db)
    | some choice =>
      if choice.choices_data.isEmpty || choice.choices_data.length ≤ b.choice_option_index then
        (none, db)
      else
        match gen with
        | none => (none, db)
        | some out =>
          let target_chapter :=
            match b.leads_to_chapter with
            | some n => if n = 0 then choice.chapter_number + 1 else n
            | none => choice.chapter_number + 1
          let db1 : ServiceDb := { db with branches := db.branches.map (fun (r : BranchRow) =>
            if r.id = b.id then { r with content := out.story_content } else r) }
          let db2 : ServiceDb :=
            if (db1.chapters.find? (fun (ch : StoryChapterRow) =>
                ch.story_id = session_story_id ∧ ch.chapter_number = target_chapter)).isSome then
              db1
            else
              let db1c := { db1 with chapters := db1.chapters
                ++ [⟨session_story_id, target_chapter, out.story_content, b.is_ending⟩] }
              if !out.choices.isEmpty && !b.is_ending then
                create_story_choices_rows db1c session_story_id target_chapter
                  out.choices out.choice_question fresh
              else db1c
          (some out.story_content, db2)

/-! ### `make_story_choice` (story_session_service.py lines 158-262) -/

/-- The choice entry handed back for the next chapter (lines 238-245). -/
structure NewChoiceInfo where
  id : Nat
  option_index : Nat
  text : String
  impact : String
  description : String
  choice_question : String
deriving DecidableEq

/-- The dict returned by `make_story_choice`. -/
inductive ChoiceOutcome where
  | failure (error : String)
  | success (branch_content : String) (is_ending : Bool) (next_chapter : Option Nat)
      (completion_percentage : Nat) (new_choices : List NewChoiceInfo)
deriving DecidableEq

/-- Collect the choice options of the chapter a branch leads to (lines
227-245). -/
def collect_new_choices (db : ServiceDb) (story_id chapter : Nat) : List NewChoiceInfo :=
  (db.choices.filter (fun c => c.story_id = story_id ∧ c.chapter_number = chapter)).flatMap
    (fun c => c.choices_data.enum.map (fun p =>
      ⟨c.id, p.1, p.2.text, p.2.impact, p.2.description, c.question⟩))

/-- Method `StorySessionService.make_story_choice`: look up session, choice, and
branch; append the choice record to the in-memory session log; lazily
generate the branch content; then move the session pointer and commit.
Returns the outcome, the committed tables, and the in-memory session object
as the caller observes it after the call. Only the success path commits the
session update; the early failure returns neither commit nor roll back the
already-appended log entry. -/
def make_story_choice (db : ServiceDb) (session_id choice_id option_index now : Nat)
    (gen : Option GenOut) (fresh : FreshIds) :
    ChoiceOutcome × ServiceDb × Option SessionRow :=
  match db.sessions.find? (fun s => s.id = session_id) with
  | none => (.failure "Session not found", db, none)
  | some session =>
    match db.choices.find? (fun c => c.id = choice_id) with
    | none => (.failure "Choice not found", db, some session)
    | some choice =>
      if choice.choices_data.length ≤ option_index then
        (.failure "Invalid choice option", db, some session)
      else
        let session1 := add_choice session choice_id option_index now
        match db.branches.find? (fun b =>
            b.choice_id = choice_id ∧ b.choice_option_index = option_index) with
        | none => (.failure "Story branch not found", db, some session1)
        | some branch =>
          let gend :=
            if branch.content = "" then
              generate_branch_content db branch session.story_id gen fresh
            else (some branch.content, db)
          match gend.1 with
          | none => (.failure "Failed to generate story content", gend.2, some session1)
          | some _ =>
            let branch1 := ((gend.2.branches.find? (fun b =>
              b.choice_id = choice_id ∧ b.choice_option_index = option_index)).getD branch)
            let session2 :=
              let sa :=
                match branch1.leads_to_chapter with
                | some n => if n ≠ 0 then { session1 with current_chapter := n } else session1
                | none => session1
              let sb :=
                if branch1.is_ending then
                  { sa with
                      is_completed := true
                      completion_percentage := 100
                      completed_at := some now }
                else sa
              let sc := { sb with choices_engagement_rate := calculate_engagement_rate sb }
              { sc with last_accessed := now }
            let db2 := { gend.2 with sessions := gend.2.sessions.map (fun r =>
              if r.id = session_id then session2 else r) }
            let new_choices :=
              if branch1.leads_to_chapter.getD 0 ≠ 0 && !branch1.is_ending then
                collect_new_choices db2 session2.story_id (branch1.leads_to_chapter.getD 0)
              else []
            (.success branch1.content branch1.is_ending branch1.leads_to_chapter
              session2.completion_percentage new_choices, db2, some session2)

/-- A concrete active session for the C6 witness. -/
def c6Active : SessionRow :=
  { new_session 11 3 7 0 with current_chapter := 2, completion_percentage := 33 }

/-- A session at chapter 1 with an empty choice log. -/
def c5Session : SessionRow := new_session 1 3 7 0

/-- A one-option choice point on chapter 1 of story 7. -/
def c5Choice : ChoiceRow := ⟨4, 7, 1, "What next?", [⟨"Go left", "", "normal"⟩]⟩

/-- The unresolved branch behind that option (content still empty). -/
def c5Branch : BranchRow := ⟨9, 7, 4, 0, "", some 2, false⟩

/-- Concrete tables: one session, one choice, one unresolved branch, one
persisted chapter. -/
def c5Db : ServiceDb :=
  ⟨[c5Session], [c5Choice], [c5Branch], [⟨7, 1, "Chapter one.", false⟩]⟩

/-! ## Theorems settling the claims -/

/-- Helper: the reading-time formula computed by the metrics node. -/
theorem reading_time_eq (s : StoryGenerationState) :
    (calculate_reading_metrics_update s).estimated_reading_time
      = max 1 (pyRound (((pySplit s.story_content).length : ℚ)
          / (wpmFor (s.child_preferences.reading_level.getD "beginner")
              (s.child_preferences.age.getD 9) : ℚ))) := rfl

/-- C1: after every `safety_check`, the routing decision satisfies: approved
content finalizes into `calculate_metrics`; otherwise a score below 0.3
regenerates (back to `generate_content`); otherwise the run enhances. This is
stated for every workflow state, hence for every state reachable after a
safety check. -/
theorem C1_safety_check_routing (s : StoryGenerationState) :
    safety_check_route s =
      if s.content_approved then WorkflowNode.calculate_metrics
      else if s.safety_score < mkRat 3 10 then WorkflowNode.generate_content
      else WorkflowNode.enhance_content := by
  unfold safety_check_route should_regenerate_content
  by_cases h : s.content_approved <;>
    by_cases h2 : s.safety_score < mkRat 3 10 <;>
      simp [h, h2]

/-- C3 (amended): for every result computed by the keyword-scoring path of
`check_content_safety`, `content_approved == (safety_score >=
CONTENT_SAFETY_THRESHOLD)` holds; the degraded result of the exception path
violates it (see the counterexample). -/
theorem C3_normal_path_invariant (s : StoryGenerationState) :
    (check_content_safety s).content_approved
      = decide ((check_content_safety s).safety_score ≥ CONTENT_SAFETY_THRESHOLD) :=
  rfl

/-- C3 counterexample: the degraded result returned when the safety check
raises has `safety_score = 0.5` and `content_approved = false`, yet
`0.5 >= CONTENT_SAFETY_THRESHOLD` holds at the default threshold `0.5`, so
the claimed invariant fails on it. -/
theorem C3_counterexample :
    ¬ (safety_check_failure_result.content_approved
        = decide (safety_check_failure_result.safety_score
            ≥ CONTENT_SAFETY_THRESHOLD)) := by
  decide

/-- C4 counterexample: a valid execution of the compiled graph in which
`enhance_content` is entered twice with no intervening `generate_content`
entry — the degraded safety result (score 0.5, not approved) routes to
`enhance` each time — refuting "the enhancement step runs at most one time
per generation attempt". -/
theorem C4_counterexample :
    WorkflowStep (.generate_content,
        initial_state ⟨some 9, some "beginner", some "english"⟩ "adventure" 1 [] [] none)
      (.safety_check, c4S1) ∧
    WorkflowStep (.safety_check, c4S1) (.enhance_content, c4S2) ∧
    WorkflowStep (.enhance_content, c4S2) (.safety_check, c4S3) ∧
    WorkflowStep (.safety_check, c4S3) (.enhance_content, c4S4) ∧
    WorkflowStep (.enhance_content, c4S4) (.safety_check, c4S5) := by
  refine ⟨WorkflowStep.generate _ c4Gen, ?_, WorkflowStep.enhance c4S2 _, ?_,
    WorkflowStep.enhance c4S4 _⟩
  · have hr : safety_check_route (apply_safety c4S1 safety_check_failure_result)
        = WorkflowNode.enhance_content := by decide
    exact hr ▸ WorkflowStep.safety c4S1 safety_check_failure_result (Or.inr rfl)
  · have hr : safety_check_route (apply_safety c4S3 safety_check_failure_result)
        = WorkflowNode.enhance_content := by decide
    exact hr ▸ WorkflowStep.safety c4S3 safety_check_failure_result (Or.inr rfl)

/-- C4 (amended): the graph imposes no per-attempt bound on the enhancement
step (see the counterexample), but every enhancement is followed by a
`safety_check` re-validation: the only edge out of `enhance_content` goes to
`safety_check`, and `calculate_metrics` can only be entered from
`safety_check`, with the arriving state approved. -/
theorem C4_enhance_revalidation
    (x y : WorkflowNode × StoryGenerationState) (hstep : WorkflowStep x y) :
    (x.1 = WorkflowNode.enhance_content → y.1 = WorkflowNode.safety_check) ∧
    (y.1 = WorkflowNode.calculate_metrics →
      x.1 = WorkflowNode.safety_check ∧ y.2.content_approved = true) := by
  cases hstep with
  | generate s g => exact ⟨fun h => by simp at h, fun h => by simp at h⟩
  | safety s r hr =>
    refine ⟨fun h => by simp at h, fun h => ⟨rfl, ?_⟩⟩
    by_cases happ : (apply_safety s r).content_approved
    · exact happ
    · exfalso
      have h1 : (safety_check_route (apply_safety s r), apply_safety s r).1
          = safety_check_route (apply_safety s r) := rfl
      rw [h1, safety_check_route, should_regenerate_content] at h
      by_cases hsc : (apply_safety s r).safety_score < mkRat 3 10 <;>
        simp [happ, hsc] at h
  | enhance s e => exact ⟨fun _ => rfl, fun h => by simp at h⟩
  | metrics s => exact ⟨fun h => by simp at h, fun h => by simp at h⟩

/-- Witness for C4: the amended theorem applied to a concrete enhancement
step and to a concrete safety step that finalizes. -/
theorem C4_enhance_revalidation_witness :
    (WorkflowNode.safety_check, apply_enhancement c4S1 none).1
        = WorkflowNode.safety_check ∧
    ((WorkflowNode.safety_check, c4S1).1 = WorkflowNode.safety_check ∧
      (safety_check_route (apply_safety c4S1 (check_content_safety c4S1)),
        apply_safety c4S1 (check_content_safety c4S1)).2.content_approved = true) :=
  ⟨(C4_enhance_revalidation _ _ (WorkflowStep.enhance c4S1 none)).1 rfl,
   (C4_enhance_revalidation _ _
      (WorkflowStep.safety c4S1 (check_content_safety c4S1) (Or.inl rfl))).2
     (by decide)⟩

/-- C9 (amended): the estimated reading time equals
`max(1, round(word_count / wpm))` — Python's `round`, i.e. round half to
even, not `ceil` — with `wpm` looked up in the three-level × six-age table
(default 120 off the table), and the result is never below 1 minute. -/
theorem C9_reading_time (s : StoryGenerationState) :
    (calculate_reading_metrics_update s).estimated_reading_time
        = max 1 (pyRound (((pySplit s.story_content).length : ℚ)
            / (wpmFor (s.child_preferences.reading_level.getD "beginner")
                (s.child_preferences.age.getD 9) : ℚ))) ∧
    1 ≤ (calculate_reading_metrics_update s).estimated_reading_time := by
  refine ⟨reading_time_eq s, ?_⟩
  rw [reading_time_eq s]
  exact le_max_left _ _

/-- C9 counterexample: for a 100-word chapter at 80 wpm (beginner, age 7),
the code computes `max(1, round(1.25)) = 1` while the claimed formula
`ceil(100/80)` gives 2 — the code rounds to nearest (ties to even), it does
not take the ceiling. -/
theorem C9_counterexample :
    (calculate_reading_metrics_update c9State).estimated_reading_time
      ≠ spec_estimated_reading_time (pySplit c9State.story_content).length
          (wpmFor "beginner" 7) := by
  have hwc : (pySplit c9State.story_content).length = 100 := by decide
  have hwpm : wpmFor "beginner" 7 = 80 := by decide
  have hwpm9 : wpmFor (c9State.child_preferences.reading_level.getD "beginner")
      (c9State.child_preferences.age.getD 9) = 80 := by decide
  have h1 : (calculate_reading_metrics_update c9State).estimated_reading_time
      = max 1 (pyRound ((100 : ℚ) / (80 : ℚ))) := by
    rw [reading_time_eq c9State, hwc, hwpm9]
    norm_num
  have h2 : pyRound ((100 : ℚ) / (80 : ℚ)) = 1 := by
    unfold pyRound
    rw [Rat.mkRat_eq_div]
    norm_num
  have h3 : spec_estimated_reading_time (pySplit c9State.story_content).length
      (wpmFor "beginner" 7) = 2 := by
    rw [hwc, hwpm]
    unfold spec_estimated_reading_time
    rw [show (⌈((100 : Nat) : ℚ) / ((80 : Nat) : ℚ)⌉ : ℤ) = 2 by
      rw [Int.ceil_eq_iff]
      norm_num]
    norm_num
  rw [h1, h2, h3]
  decide

/-- C10 (amended): `calculate_metrics` fills `estimated_reading_time` and
`vocabulary_level`, leaves every other field except the story text unchanged,
and replaces `story_content` with its formatted (paragraph-grouped,
emoji-annotated) version — so the story text is not, in general, left
unchanged (see the counterexample). -/
theorem C10_metrics_update_frame (s : StoryGenerationState) :
    (calculate_reading_metrics_update s).story_content
        = format_story_content s.story_content
            (s.child_preferences.language.getD "english") ∧
    (calculate_reading_metrics_update s).vocabulary_level
        = s.child_preferences.reading_level.getD "beginner" ∧
    (calculate_reading_metrics_update s).child_preferences = s.child_preferences ∧
    (calculate_reading_metrics_update s).story_theme = s.story_theme ∧
    (calculate_reading_metrics_update s).chapter_number = s.chapter_number ∧
    (calculate_reading_metrics_update s).previous_chapters = s.previous_chapters ∧
    (calculate_reading_metrics_update s).previous_choices = s.previous_choices ∧
    (calculate_reading_metrics_update s).custom_user_input = s.custom_user_input ∧
    (calculate_reading_metrics_update s).choices = s.choices ∧
    (calculate_reading_metrics_update s).safety_score = s.safety_score ∧
    (calculate_reading_metrics_update s).content_approved = s.content_approved ∧
    (calculate_reading_metrics_update s).content_issues = s.content_issues ∧
    (calculate_reading_metrics_update s).educational_elements = s.educational_elements ∧
    (calculate_reading_metrics_update s).vocabulary_words = s.vocabulary_words :=
  ⟨rfl, rfl, rfl, rfl, rfl, rfl, rfl, rfl, rfl, rfl, rfl, rfl, rfl, rfl⟩

/-- C10 counterexample: on the four-sentence text `"A. B. C. D."` the
metrics stage emits `"A. B. C.\n\nD."` — paragraph grouping rewrites the
story text, so the claim that the story text is left unchanged fails. -/
theorem C10_counterexample :
    (calculate_reading_metrics_update c10State).story_content
      ≠ c10State.story_content := by
  decide

/-- C7: the Safety Evaluator's overall score is the stated weighted sum,
`is_approved == (score >= threshold)` at the default threshold 0.5,
`needs_review == (score < 0.8)`, and hence approved content scoring in
`[threshold, 0.8)` is still flagged for review. -/
theorem C7_overall_safety (st : ContentSafetyInputs) :
    ((calculate_overall_safety st).overall_safety_score
        = (if st.moderation_result.flagged.getD false then 0 else 1) * mkRat 4 10
          + (st.age_appropriateness_score.getD (mkRat 8 10)) * mkRat 3 10
          + (st.cultural_sensitivity_score.getD (mkRat 8 10)) * mkRat 2 10
          + (st.educational_value_score.getD (mkRat 1 2)) * mkRat 1 10) ∧
    ((calculate_overall_safety st).is_approved
        = decide ((calculate_overall_safety st).overall_safety_score
            ≥ CONTENT_SAFETY_THRESHOLD)) ∧
    ((calculate_overall_safety st).needs_review
        = decide ((calculate_overall_safety st).overall_safety_score < mkRat 8 10)) ∧
    (CONTENT_SAFETY_THRESHOLD ≤ (calculate_overall_safety st).overall_safety_score →
      (calculate_overall_safety st).overall_safety_score < mkRat 8 10 →
      (calculate_overall_safety st).is_approved = true ∧
        (calculate_overall_safety st).needs_review = true) := by
  refine ⟨rfl, rfl, rfl, fun h1 h2 => ⟨decide_eq_true h1, decide_eq_true h2⟩⟩

/-- Witness for C7: an unflagged result with sub-scores 0.5 lands at overall
0.7, which is approved yet still flagged for review. -/
theorem C7_overall_safety_witness :
    (calculate_overall_safety c7Inputs).is_approved = true ∧
    (calculate_overall_safety c7Inputs).needs_review = true :=
  (C7_overall_safety c7Inputs).2.2.2
    (by norm_num [calculate_overall_safety, c7Inputs, CONTENT_SAFETY_THRESHOLD,
      Rat.mkRat_eq_div])
    (by norm_num [calculate_overall_safety, c7Inputs, Rat.mkRat_eq_div])

/-- C8: every per-chapter summary is at most 400 characters; a chapter of at
most 100 words is passed through (subject to the 400-char slice); a longer
chapter becomes its first 60 words, an ellipsis, and its last 40 words
(subject to the slice); consequently the total summarized context for any
chapter list is bounded by 400 per chapter, independent of chapter sizes. -/
theorem C8_context_summary :
    (∀ chapter n, (create_story_summary chapter n).length ≤ 400) ∧
    (∀ chapter n, (pySplit chapter).length ≤ 100 →
      create_story_summary chapter n = chapter.take 400) ∧
    (∀ chapter n, 100 < (pySplit chapter).length →
      create_story_summary chapter n
        = (joinSpace ((pySplit chapter).take 60) ++ "... ".toList
            ++ joinSpace (lastN 40 (pySplit chapter))).take 400) ∧
    (∀ chapters : List (List Char),
      ((chapters.map (fun c => create_story_summary c 0)).map List.length).sum
        ≤ 400 * chapters.length) := by
  have hlen : ∀ chapter n, (create_story_summary chapter n).length ≤ 400 := by
    intro c n
    show (List.take 400 _).length ≤ 400
    rw [List.length_take]
    exact min_le_left _ _
  refine ⟨hlen, ?_, ?_, ?_⟩
  · intro c n h
    show (if (pySplit c).length ≤ 100 then c else _).take 400 = c.take 400
    rw [if_pos h]
  · intro c n h
    show (if (pySplit c).length ≤ 100 then c else _).take 400 = _
    rw [if_neg (by omega)]
  · intro chapters
    induction chapters with
    | nil => simp
    | cons c cs ih =>
      simp only [List.map_cons, List.sum_cons, List.length_cons]
      have := hlen c 0
      omega

/-- Witness for C8: the pass-through branch on a 2-word chapter and the
excerpt branch on a 101-word chapter. -/
theorem C8_context_summary_witness :
    (create_story_summary "short tale".toList 1 = ("short tale".toList).take 400) ∧
    (create_story_summary c8Long 1
      = (joinSpace ((pySplit c8Long).take 60) ++ "... ".toList
          ++ joinSpace (lastN 40 (pySplit c8Long))).take 400) :=
  ⟨C8_context_summary.2.1 _ 1 (by decide), C8_context_summary.2.2.1 _ 1 (by decide)⟩

/-- C2: the choice list delivered to the caller is never empty — when every
parsed choice is dropped for lacking a non-empty text, the three-option
age-banded fallback (translated for non-English targets) is substituted. -/
theorem C2_choices_nonempty (parsed : List ChoiceOption) (age : Nat)
    (language : String) :
    1 ≤ (validate_parsed_choices parsed age language).length := by
  unfold validate_parsed_choices
  by_cases h : (parsed.filter (fun c => c.text ≠ "")).isEmpty
  · rw [if_pos h]
    unfold generic_fallback_choices
    by_cases hage : age ≤ 9 <;>
      simp [hage, young_generic_choices, older_generic_choices]
  · rw [if_neg h]
    rcases hne : parsed.filter (fun c => c.text ≠ "") with _ | ⟨c, cs⟩
    · rw [hne] at h
      simp at h
    · rw [hne]
      simp

/-- C6: `start_story_session` resumes the first active (non-completed)
session for the (child, story) pair when one exists — returning it with only
`last_accessed` touched and adding no row — and otherwise creates a fresh
session at chapter 1 and 0% completion; under unique row ids it preserves
"at most one active session per pair". -/
theorem C6_start_session (db : List SessionRow) (child_id story_id now fresh_id : Nat) :
    (∀ s, db.find? (session_is_active_for child_id story_id) = some s →
      (start_story_session db child_id story_id now fresh_id).1
          = { s with last_accessed := now } ∧
      (start_story_session db child_id story_id now fresh_id).2.length = db.length) ∧
    (db.find? (session_is_active_for child_id story_id) = none →
      (start_story_session db child_id story_id now fresh_id).1
          = new_session fresh_id child_id story_id now ∧
      (start_story_session db child_id story_id now fresh_id).1.current_chapter = 1 ∧
      (start_story_session db child_id story_id now fresh_id).1.completion_percentage = 0 ∧
      (start_story_session db child_id story_id now fresh_id).2
          = db ++ [new_session fresh_id child_id story_id now]) ∧
    ((∀ r ∈ db, ∀ r' ∈ db, r.id = r'.id → r = r') →
      (db.filter (session_is_active_for child_id story_id)).length ≤ 1 →
      ((start_story_session db child_id story_id now fresh_id).2.filter
          (session_is_active_for child_id story_id)).length ≤ 1) := by
  refine ⟨?_, ?_, ?_⟩
  · intro s h
    simp [start_story_session, h]
  · intro h
    simp [start_story_session, h, new_session]
  · intro hid hcount
    rcases hfind : db.find? (session_is_active_for child_id story_id) with _ | s
    · have h0 : db.filter (session_is_active_for child_id story_id) = [] := by
        rw [List.filter_eq_nil_iff]
        intro a ha
        exact (List.find?_eq_none.mp hfind) a ha
      simp only [start_story_session, hfind, List.filter_append, h0, List.nil_append]
      have : session_is_active_for child_id story_id
          (new_session fresh_id child_id story_id now) = true := by
        simp [session_is_active_for, new_session]
      simp [this]
    · have hmem : s ∈ db := List.mem_of_find?_eq_some hfind
      have hp : ∀ r ∈ db,
          session_is_active_for child_id story_id
            (if r.id = s.id then { s with last_accessed := now } else r)
            = session_is_active_for child_id story_id r := by
        intro r hr
        by_cases hrid : r.id = s.id
        · have hrs : r = s := hid r hr s hmem hrid
          subst hrs
          rw [if_pos rfl]
          rfl
        · rw [if_neg hrid]
      simp only [start_story_session, hfind]
      calc ((db.map (fun r => if r.id = s.id then { s with last_accessed := now } else r)).filter
              (session_is_active_for child_id story_id)).length
          = ((db.filter (fun r => session_is_active_for child_id story_id
              (if r.id = s.id then { s with last_accessed := now } else r))).map
              (fun r => if r.id = s.id then { s with last_accessed := now } else r)).length := by
            rw [List.filter_map]
            rfl
        _ = (db.filter (fun r => session_is_active_for child_id story_id
              (if r.id = s.id then { s with last_accessed := now } else r))).length := by
            rw [List.length_map]
        _ = (db.filter (session_is_active_for child_id story_id)).length := by
            rw [List.filter_congr hp]
        _ ≤ 1 := hcount

/-- Witness for C6: resume on a one-session table, fresh creation on an
empty table, and invariant preservation on the one-session table. -/
theorem C6_start_session_witness :
    ((start_story_session [c6Active] 3 7 5 99).1 = { c6Active with last_accessed := 5 } ∧
      (start_story_session [c6Active] 3 7 5 99).2.length = [c6Active].length) ∧
    ((start_story_session ([] : List SessionRow) 3 7 5 99).1 = new_session 99 3 7 5 ∧
      (start_story_session ([] : List SessionRow) 3 7 5 99).1.current_chapter = 1 ∧
      (start_story_session ([] : List SessionRow) 3 7 5 99).1.completion_percentage = 0 ∧
      (start_story_session ([] : List SessionRow) 3 7 5 99).2
          = [] ++ [new_session 99 3 7 5]) ∧
    (((start_story_session [c6Active] 3 7 5 99).2.filter
        (session_is_active_for 3 7)).length ≤ 1) :=
  ⟨(C6_start_session [c6Active] 3 7 5 99).1 c6Active (by decide),
   (C6_start_session [] 3 7 5 99).2.1 (by decide),
   (C6_start_session [c6Active] 3 7 5 99).2.2 (by decide) (by decide)⟩

/-- C5 (amended): when lazy branch generation fails during an advance, the
call returns the advance-failure result, the committed tables are exactly
the tables before the call, and the session pointer (`current_chapter`) is
unmoved — but the choice record appended to the in-memory session log
before the branch lookup is not rolled back on this path, so the observable
session log has grown by that one record. -/
theorem C5_advance_failure_frame (db : ServiceDb)
    (session_id choice_id option_index now : Nat) (fresh : FreshIds)
    (sess : SessionRow) (ch : ChoiceRow) (br : BranchRow)
    (hs : db.sessions.find? (fun s => s.id = session_id) = some sess)
    (hc : db.choices.find? (fun c => c.id = choice_id) = some ch)
    (hidx : option_index < ch.choices_data.length)
    (hb : db.branches.find? (fun b =>
        b.choice_id = choice_id ∧ b.choice_option_index = option_index) = some br)
    (hempty : br.content = "") :
    make_story_choice db session_id choice_id option_index now none fresh
      = (.failure "Failed to generate story content", db,
          some (add_choice sess choice_id option_index now)) ∧
    (add_choice sess choice_id option_index now).current_chapter
        = sess.current_chapter ∧
    (add_choice sess choice_id option_index now).choices_made
        = sess.choices_made ++ [⟨choice_id, option_index, now⟩] := by
  have hbr := List.find?_some hb
  simp only [Bool.and_eq_true, decide_eq_true_eq] at hbr
  obtain ⟨hbc, hbo⟩ := hbr
  have hne : ¬ (ch.choices_data.length ≤ option_index) := by omega
  have hcond : (ch.choices_data.isEmpty
      || decide (ch.choices_data.length ≤ br.choice_option_index)) = false := by
    rw [hbo]
    have h1 : ch.choices_data.isEmpty = false := by
      rcases hD : ch.choices_data with _ | _
      · rw [hD] at hidx; simp at hidx
      · rfl
    simp [h1, hne]
  refine ⟨?_, rfl, rfl⟩
  simp only [make_story_choice, hs, hc, if_neg hne, hb, generate_branch_content,
    hempty, ne_eq, not_true_eq_false, if_false, hbc, hc, hcond, Bool.false_eq_true,
    if_neg]
  rfl

/-- C5 counterexample: with branch generation failing, the call does return
the advance-failure result — but the session observable afterwards is NOT
unchanged: its choice log has grown by the record appended before the branch
lookup, which this path never rolls back. -/
theorem C5_counterexample :
    (make_story_choice c5Db 1 4 0 5 none ⟨50, 60⟩).1
        = ChoiceOutcome.failure "Failed to generate story content" ∧
    (make_story_choice c5Db 1 4 0 5 none ⟨50, 60⟩).2.2 ≠ some c5Session := by
  decide

/-- Witness for C5: the amended theorem applied to the concrete tables. -/
theorem C5_advance_failure_frame_witness :
    make_story_choice c5Db 1 4 0 5 none ⟨50, 60⟩
      = (.failure "Failed to generate story content", c5Db,
          some (add_choice c5Session 4 0 5)) ∧
    (add_choice c5Session 4 0 5).current_chapter = c5Session.current_chapter ∧
    (add_choice c5Session 4 0 5).choices_made
        = c5Session.choices_made ++ [⟨4, 0, 5⟩] :=
  C5_advance_failure_frame c5Db 1 4 0 5 ⟨50, 60⟩ c5Session c5Choice c5Branch
    (by decide) (by decide) (by decide) (by decide) (by decide)

end ITeach
